import Mathlib

/-!
Verification of the custom-captcha server core.

Shallow embedding of `src/server/index.ts` of the `custom-captcha`
repository: the challenge generator (`createCaptcha`) and the challenge
verifier (`verifyCaptcha`).  Injected storage collaborators are modelled as
functions returning `Except String α` (a thrown exception carries its
message), and the storage writes performed by a call are returned
explicitly as a list of `(id, value)` pairs.
-/

namespace CustomCaptcha

/-- Constant value stored when a captcha is successfully verified
(`const ON_VERIFY_CAPTCHA_VALUE = "verified"`). -/
def ON_VERIFY_CAPTCHA_VALUE : String := "verified"

/-- Return type for captcha verification (`interface VerificationResult`):
`success` flag plus optional `reason` string. -/
structure VerificationResult where
  success : Bool
  reason : Option String
  deriving DecidableEq, Repr

/-- Props for verifying a captcha (`interface VerifyCaptchaProps`).
The injected functions `getCaptchaValue` / `changeCaptchaIdOnSuccess`
either return a value (`Except.ok`) or throw (`Except.error msg`).
`tolerance` is the optional tolerance argument. -/
structure VerifyCaptchaProps where
  captchaId : String
  value : String
  getCaptchaValue : String → Except String (Option String)
  changeCaptchaIdOnSuccess : String → String → Except String Unit
  tolerance : Option Int

/-- JavaScript `parseInt(s, 10)`: skip leading whitespace, read an optional
sign, then the longest prefix of decimal digits; `none` models `NaN`
(no digits at all), otherwise the signed value of the digit prefix.
Trailing non-digit characters are ignored. -/
def jsParseInt (s : String) : Option Int :=
  let cs := s.data.dropWhile Char.isWhitespace
  let signAndRest : Bool × List Char :=
    match cs with
    | '-' :: r => (true, r)
    | '+' :: r => (false, r)
    | _ => (false, cs)
  let ds := signAndRest.2.takeWhile Char.isDigit
  if ds.isEmpty then none
  else
    let n : Int := Int.ofNat (ds.foldl (fun acc c => acc * 10 + (c.toNat - 48)) 0)
    some (if signAndRest.1 then -n else n)

/-- JavaScript `tolerance || 10` on the optional tolerance argument:
`undefined` (absent) and the falsy number `0` both yield the default `10`;
any other supplied number is kept. -/
def jsEffectiveTolerance (tolerance : Option Int) : Int :=
  match tolerance with
  | none => 10
  | some t => if t = 0 then 10 else t

/-- Model of `verifyCaptcha` from `src/server/index.ts`, as a function from
the props to the returned `VerificationResult` together with the list of
`(id, value)` invocations of `changeCaptchaIdOnSuccess` it performed.
Mirrors the source line by line:
lookup (`!storedValue` is JavaScript-falsy: `null` or `""`),
sentinel check, `parseInt` of both positions with the `isNaN` guard,
`Math.abs(correctPosition - userPosition) <= (tolerance || 10)`, the
mark-verified call on success, and the surrounding `try/catch` turning any
thrown error `e` into `{success: false, reason: "Verification error: " + e}`. -/
def verifyCaptcha (props : VerifyCaptchaProps) :
    VerificationResult × List (String × String) :=
  match props.getCaptchaValue props.captchaId with
  | .error e => (⟨false, some ("Verification error: " ++ e)⟩, [])
  | .ok storedOpt =>
    match storedOpt with
    | none => (⟨false, some "Captcha not found or has expired"⟩, [])
    | some storedValue =>
      if storedValue = "" then
        (⟨false, some "Captcha not found or has expired"⟩, [])
      else if storedValue = ON_VERIFY_CAPTCHA_VALUE then
        (⟨true, none⟩, [])
      else
        match jsParseInt props.value, jsParseInt storedValue with
        | some userPosition, some correctPosition =>
          if |correctPosition - userPosition| ≤ jsEffectiveTolerance props.tolerance then
            match props.changeCaptchaIdOnSuccess props.captchaId ON_VERIFY_CAPTCHA_VALUE with
            | .ok _ => (⟨true, none⟩, [(props.captchaId, ON_VERIFY_CAPTCHA_VALUE)])
            | .error e =>
              (⟨false, some ("Verification error: " ++ e)⟩,
                [(props.captchaId, ON_VERIFY_CAPTCHA_VALUE)])
          else
            (⟨false, some "Please position the puzzle piece correctly"⟩, [])
        | _, _ => (⟨false, some "Invalid position values"⟩, [])

/-- The observable trace of one `createCaptcha` call: the drawn slider
offset, the `(id, value)` pair passed to the injected `storeCaptchaId`,
the geometry of the `extract` call producing the puzzle piece, the
placement of the black square composite, and the returned challenge id. -/
structure CreateCaptchaTrace where
  sliderOffset : Int
  storeCall : String × String
  extractLeft : Int
  extractTop : Int
  extractWidth : Int
  extractHeight : Int
  compositeLeft : Int
  compositeTop : Int
  returnedId : String
  deriving DecidableEq, Repr

/-- Model of `createCaptcha` from `src/server/index.ts`, parameterised by
the underlying random draw `r = Math.random() ∈ [0,1)` and the UUID
`freshUUID = randomUUID()` that would be minted.  The slider offset is
`Math.max(55, Math.floor(Math.random() * 249))`; the challenge id is
`captchaId || randomUUID()` (JavaScript-falsy: absent or `""` falls back
to the fresh UUID); the stored value is `sliderOffset.toString()`; the
piece is extracted at `{left: sliderOffset, top: 75, width: 50, height: 50}`
and the black square is composited at `{top: 75, left: sliderOffset}`. -/
def createCaptcha (r : ℚ) (captchaId : Option String) (freshUUID : String) :
    CreateCaptchaTrace :=
  let sliderOffset : Int := max 55 ⌊r * 249⌋
  let theCaptchaId : String :=
    match captchaId with
    | none => freshUUID
    | some s => if s = "" then freshUUID else s
  { sliderOffset := sliderOffset
    storeCall := (theCaptchaId, toString sliderOffset)
    extractLeft := sliderOffset
    extractTop := 75
    extractWidth := 50
    extractHeight := 50
    compositeLeft := sliderOffset
    compositeTop := 75
    returnedId := theCaptchaId }

/-- Model of `hasCaptchaBeenVerified` from `src/server/index.ts`: pure
sentinel comparison. -/
def hasCaptchaBeenVerified (value : String) : Bool :=
  value = ON_VERIFY_CAPTCHA_VALUE

/-- Fixture: a pending challenge stored as `"100"`, submission `"105"`,
with an explicitly supplied tolerance of `0`. -/
def c1CexProps : VerifyCaptchaProps :=
  { captchaId := "c1", value := "105",
    getCaptchaValue := fun _ => .ok (some "100"),
    changeCaptchaIdOnSuccess := fun _ _ => .ok (),
    tolerance := some 0 }

/-- Fixture: a pending challenge stored as `"100"`, submission `"107"`,
with a supplied tolerance of `7`. -/
def c1WitProps : VerifyCaptchaProps :=
  { captchaId := "c1w", value := "107",
    getCaptchaValue := fun _ => .ok (some "100"),
    changeCaptchaIdOnSuccess := fun _ _ => .ok (),
    tolerance := some 7 }

/-- Fixture: a pending challenge stored as `"100"`, submission `"150"`
(out of tolerance), default tolerance. -/
def c2CexProps : VerifyCaptchaProps :=
  { captchaId := "c2", value := "150",
    getCaptchaValue := fun _ => .ok (some "100"),
    changeCaptchaIdOnSuccess := fun _ _ => .ok (),
    tolerance := none }

/-- Fixture: a pending challenge stored as `"100"`, submission `"105"`
(within the default tolerance). -/
def c2WitProps : VerifyCaptchaProps :=
  { captchaId := "c2w", value := "105",
    getCaptchaValue := fun _ => .ok (some "100"),
    changeCaptchaIdOnSuccess := fun _ _ => .ok (),
    tolerance := none }

/-- Fixture: a challenge whose stored value is the sentinel `"verified"`. -/
def c3Props : VerifyCaptchaProps :=
  { captchaId := "c3", value := "1",
    getCaptchaValue := fun _ => .ok (some "verified"),
    changeCaptchaIdOnSuccess := fun _ _ => .ok (),
    tolerance := none }

/-- Fixture: a retrieval function that throws with message `"boom"`. -/
def c4Props : VerifyCaptchaProps :=
  { captchaId := "c4", value := "100",
    getCaptchaValue := fun _ => .error "boom",
    changeCaptchaIdOnSuccess := fun _ _ => .ok (),
    tolerance := none }

/-- Fixture: an unknown challenge id, retrieval returns `null`. -/
def c6Props : VerifyCaptchaProps :=
  { captchaId := "nonexistent", value := "100",
    getCaptchaValue := fun _ => .ok none,
    changeCaptchaIdOnSuccess := fun _ _ => .ok (),
    tolerance := none }

/-- Fixture: a challenge whose stored value is the empty string (present
but JavaScript-falsy), with a non-numeric submission. -/
def c7CexProps : VerifyCaptchaProps :=
  { captchaId := "c7", value := "abc",
    getCaptchaValue := fun _ => .ok (some ""),
    changeCaptchaIdOnSuccess := fun _ _ => .ok (),
    tolerance := none }

/-- Fixture: a pending challenge stored as `"100"` with a non-numeric
submission `"abc"`. -/
def c7WitProps : VerifyCaptchaProps :=
  { captchaId := "c7w", value := "abc",
    getCaptchaValue := fun _ => .ok (some "100"),
    changeCaptchaIdOnSuccess := fun _ _ => .ok (),
    tolerance := none }

/-- Fixture: a pending challenge stored as `"100"`, submission `"108"`,
with an explicitly supplied tolerance of `0`. -/
def c9Props : VerifyCaptchaProps :=
  { captchaId := "c9", value := "108",
    getCaptchaValue := fun _ => .ok (some "100"),
    changeCaptchaIdOnSuccess := fun _ _ => .ok (),
    tolerance := some 0 }

/-- Fixture: a pending challenge stored as `"120"`, submission `"125px"`
(integer prefix followed by non-numeric characters). -/
def c10Props : VerifyCaptchaProps :=
  { captchaId := "c10", value := "125px",
    getCaptchaValue := fun _ => .ok (some "120"),
    changeCaptchaIdOnSuccess := fun _ _ => .ok (),
    tolerance := none }

/-- The empty string has no digits, so `parseInt` yields `NaN`. -/
theorem jsParseInt_empty : jsParseInt "" = none := rfl

/-- The sentinel `"verified"` has no leading digits, so `parseInt` yields
`NaN`. -/
theorem jsParseInt_sentinel : jsParseInt ON_VERIFY_CAPTCHA_VALUE = none := by decide

/-- A string that parses to an integer is not the empty string. -/
theorem ne_empty_of_jsParseInt {sv : String} {s : Int} (h : jsParseInt sv = some s) :
    sv ≠ "" := by
  intro he
  rw [he, jsParseInt_empty] at h
  cases h

/-- A string that parses to an integer is not the sentinel `"verified"`. -/
theorem ne_sentinel_of_jsParseInt {sv : String} {s : Int} (h : jsParseInt sv = some s) :
    sv ≠ ON_VERIFY_CAPTCHA_VALUE := by
  intro he
  rw [he, jsParseInt_sentinel] at h
  cases h

/-- Every caught-exception reason is a non-empty string. -/
theorem verification_error_ne_empty (e : String) :
    ("Verification error: " ++ e) ≠ "" := by
  intro h
  have h2 := congrArg String.length h
  rw [String.length_append] at h2
  have h3 : ("Verification error: " : String).length = 20 := by decide
  rw [h3] at h2
  have h4 : ("" : String).length = 0 := by decide
  rw [h4] at h2
  omega

/-- A caught-exception reason never collides with the fixed reason string
of the unparsable-position branch (their first characters differ). -/
theorem verification_error_ne_invalid (e : String) :
    ("Verification error: " ++ e) ≠ "Invalid position values" := by
  intro h
  have h2 : ("Verification error: " ++ e).data.head? = some 'I' := by rw [h]; decide
  rw [String.data_append] at h2
  have h3 : ("Verification error: " : String).data =
      'V' :: ("erification error: " : String).data := by decide
  rw [h3] at h2
  exact absurd (Option.some.inj h2) (by decide)

/-- Branch lemma: a throwing retrieval function is caught and converted. -/
theorem verifyCaptcha_getError_eq (props : VerifyCaptchaProps) (e : String)
    (hget : props.getCaptchaValue props.captchaId = .error e) :
    verifyCaptcha props = (⟨false, some ("Verification error: " ++ e)⟩, []) := by
  unfold verifyCaptcha
  rw [hget]

/-- Branch lemma: a `null` stored value yields the not-found result and no
storage write. -/
theorem verifyCaptcha_none_eq (props : VerifyCaptchaProps)
    (hget : props.getCaptchaValue props.captchaId = .ok none) :
    verifyCaptcha props = (⟨false, some "Captcha not found or has expired"⟩, []) := by
  unfold verifyCaptcha
  rw [hget]

/-- Branch lemma: an empty-string stored value is JavaScript-falsy and also
yields the not-found result. -/
theorem verifyCaptcha_emptyStored_eq (props : VerifyCaptchaProps)
    (hget : props.getCaptchaValue props.captchaId = .ok (some "")) :
    verifyCaptcha props = (⟨false, some "Captcha not found or has expired"⟩, []) := by
  unfold verifyCaptcha
  rw [hget]
  dsimp only
  rw [if_pos rfl]

/-- Branch lemma: a stored sentinel value yields immediate success and no
storage write. -/
theorem verifyCaptcha_sentinel_eq (props : VerifyCaptchaProps)
    (hget : props.getCaptchaValue props.captchaId = .ok (some ON_VERIFY_CAPTCHA_VALUE)) :
    verifyCaptcha props = (⟨true, none⟩, []) := by
  unfold verifyCaptcha
  rw [hget]
  dsimp only
  rw [if_neg (by decide : ¬ (ON_VERIFY_CAPTCHA_VALUE = "")), if_pos rfl]

/-- Branch lemma: with a pending non-falsy stored value, a parse failure on
either side yields the invalid-position result and no storage write. -/
theorem verifyCaptcha_invalid_eq (props : VerifyCaptchaProps) (sv : String)
    (hget : props.getCaptchaValue props.captchaId = .ok (some sv))
    (hne : sv ≠ "") (hnv : sv ≠ ON_VERIFY_CAPTCHA_VALUE)
    (hfail : jsParseInt props.value = none ∨ jsParseInt sv = none) :
    verifyCaptcha props = (⟨false, some "Invalid position values"⟩, []) := by
  unfold verifyCaptcha
  rw [hget]
  dsimp only
  rw [if_neg hne, if_neg hnv]
  rcases hfail with h | h
  · rw [h]
  · rw [h]
    cases jsParseInt props.value <;> rfl

/-- Branch lemma: with a pending stored value parsing to `s` and a
submission parsing to `u`, `verifyCaptcha` reduces to the tolerance
comparison followed by the mark-verified call. -/
theorem verifyCaptcha_pending_eq (props : VerifyCaptchaProps) (sv : String) (s u : Int)
    (hget : props.getCaptchaValue props.captchaId = .ok (some sv))
    (hs : jsParseInt sv = some s) (hu : jsParseInt props.value = some u) :
    verifyCaptcha props =
      if |s - u| ≤ jsEffectiveTolerance props.tolerance then
        match props.changeCaptchaIdOnSuccess props.captchaId ON_VERIFY_CAPTCHA_VALUE with
        | .ok _ => (⟨true, none⟩, [(props.captchaId, ON_VERIFY_CAPTCHA_VALUE)])
        | .error e =>
          (⟨false, some ("Verification error: " ++ e)⟩,
            [(props.captchaId, ON_VERIFY_CAPTCHA_VALUE)])
      else (⟨false, some "Please position the puzzle piece correctly"⟩, []) := by
  have hne : sv ≠ "" := ne_empty_of_jsParseInt hs
  have hnv : sv ≠ ON_VERIFY_CAPTCHA_VALUE := ne_sentinel_of_jsParseInt hs
  unfold verifyCaptcha
  rw [hget]
  dsimp only
  rw [if_neg hne, if_neg hnv, hu, hs]

/-- Exhaustive shape of every result of `verifyCaptcha`: success carries no
reason, and each failure carries one of the four reason forms of the
source. -/
theorem verifyCaptcha_result_shape (props : VerifyCaptchaProps) :
    (verifyCaptcha props).1 = ⟨true, none⟩ ∨
    (verifyCaptcha props).1 = ⟨false, some "Captcha not found or has expired"⟩ ∨
    (verifyCaptcha props).1 = ⟨false, some "Invalid position values"⟩ ∨
    (verifyCaptcha props).1 = ⟨false, some "Please position the puzzle piece correctly"⟩ ∨
    ∃ e, (verifyCaptcha props).1 = ⟨false, some ("Verification error: " ++ e)⟩ := by
  unfold verifyCaptcha
  split
  · right; right; right; right; exact ⟨_, rfl⟩
  · split
    · right; left; rfl
    · split
      · right; left; rfl
      · split
        · left; rfl
        · split
          · split
            · split
              · left; rfl
              · right; right; right; right; exact ⟨_, rfl⟩
            · right; right; right; left; rfl
          · right; right; left; rfl

/-- C1 counterexample: with caller-supplied tolerance `0`, stored `"100"`
and submission `"105"`, `verifyCaptcha` succeeds even though
`|100 - 105| ≤ 0` is false, refuting "success iff the difference is at
most the caller-supplied tolerance" as stated. -/
theorem verifyCaptcha_toleranceBoundary_cex :
    ¬ (((verifyCaptcha c1CexProps).1.success = true) ↔
        |(100 : Int) - 105| ≤ (Option.getD (some 0) 10)) := by decide

/-- C1 (amended): for a pending challenge whose stored value parses to `s`
and a submission parsing to `u`, with a non-throwing mark-verified
function, `verifyCaptcha` succeeds iff `|s - u|` is at most the effective
tolerance, which is the caller-supplied tolerance when that is nonzero and
`10` when none is supplied or `0` is supplied; in particular it succeeds at
the exact boundary and fails one past it. -/
theorem verifyCaptcha_toleranceBoundary (props : VerifyCaptchaProps) (sv : String) (s u : Int)
    (hget : props.getCaptchaValue props.captchaId = .ok (some sv))
    (hs : jsParseInt sv = some s) (hu : jsParseInt props.value = some u)
    (hmark : props.changeCaptchaIdOnSuccess props.captchaId ON_VERIFY_CAPTCHA_VALUE = .ok ()) :
    (verifyCaptcha props).1.success = true ↔
      |s - u| ≤ jsEffectiveTolerance props.tolerance := by
  rw [verifyCaptcha_pending_eq props sv s u hget hs hu]
  by_cases hle : |s - u| ≤ jsEffectiveTolerance props.tolerance
  · rw [if_pos hle, hmark]
    simp [hle]
  · rw [if_neg hle]
    simp [hle]

/-- C1 witness: tolerance `7`, stored `"100"`, submission `"107"`: success
iff `|100 - 107| ≤ 7`, which holds at the exact boundary. -/
theorem verifyCaptcha_toleranceBoundary_witness :
    (verifyCaptcha c1WitProps).1.success = true ↔
      |(100 : Int) - 107| ≤ jsEffectiveTolerance (some 7) :=
  verifyCaptcha_toleranceBoundary c1WitProps "100" 100 107 rfl (by decide) (by decide) rfl

/-- C2 counterexample: an out-of-tolerance submission fails with reason
`"Please position the puzzle piece correctly"`, not the claimed literal
`"incorrect position"` (and performs no storage write). -/
theorem verifyCaptcha_markOnSuccess_cex :
    (verifyCaptcha c2CexProps).1.success = false ∧
    (verifyCaptcha c2CexProps).2 = [] ∧
    (verifyCaptcha c2CexProps).1.reason ≠ some "incorrect position" ∧
    (verifyCaptcha c2CexProps).1.reason =
      some "Please position the puzzle piece correctly" := by decide

/-- C2 (amended): when a pending stored integer is within tolerance of the
submitted integer and the mark-verified function does not throw,
`verifyCaptcha` invokes that function exactly once with
`(id, "verified")` and returns success; when the comparison fails it
returns failure with reason `"Please position the puzzle piece correctly"`
and performs no storage write at all. -/
theorem verifyCaptcha_markOnSuccess (props : VerifyCaptchaProps) (sv : String) (s u : Int)
    (hget : props.getCaptchaValue props.captchaId = .ok (some sv))
    (hs : jsParseInt sv = some s) (hu : jsParseInt props.value = some u)
    (hmark : props.changeCaptchaIdOnSuccess props.captchaId ON_VERIFY_CAPTCHA_VALUE = .ok ()) :
    (|s - u| ≤ jsEffectiveTolerance props.tolerance →
      verifyCaptcha props = (⟨true, none⟩, [(props.captchaId, ON_VERIFY_CAPTCHA_VALUE)])) ∧
    (¬ |s - u| ≤ jsEffectiveTolerance props.tolerance →
      verifyCaptcha props =
        (⟨false, some "Please position the puzzle piece correctly"⟩, [])) := by
  rw [verifyCaptcha_pending_eq props sv s u hget hs hu]
  constructor
  · intro hle
    rw [if_pos hle, hmark]
  · intro hle
    rw [if_neg hle]

/-- C2 witness: stored `"100"`, submission `"105"`, default tolerance:
one mark-verified invocation with the sentinel and a success result. -/
theorem verifyCaptcha_markOnSuccess_witness :
    verifyCaptcha c2WitProps = (⟨true, none⟩, [("c2w", ON_VERIFY_CAPTCHA_VALUE)]) :=
  (verifyCaptcha_markOnSuccess c2WitProps "100" 100 105 rfl (by decide) (by decide)
    rfl).1 (by decide)

/-- C3: when the stored value equals the sentinel `"verified"`,
`verifyCaptcha` returns `{success: true}` with no reason and no storage
write, for every submitted value; hence any verify after a successful one
succeeds regardless of the submission. -/
theorem verifyCaptcha_sentinelIdempotent (props : VerifyCaptchaProps)
    (hget : props.getCaptchaValue props.captchaId = .ok (some ON_VERIFY_CAPTCHA_VALUE)) :
    ∀ v : String, verifyCaptcha { props with value := v } = (⟨true, none⟩, []) := by
  intro v
  exact verifyCaptcha_sentinel_eq _ hget

/-- C3 witness: a verified challenge accepts an arbitrary garbage
submission. -/
theorem verifyCaptcha_sentinelIdempotent_witness :
    verifyCaptcha { c3Props with value := "some-arbitrary-garbage" } = (⟨true, none⟩, []) :=
  verifyCaptcha_sentinelIdempotent c3Props rfl "some-arbitrary-garbage"

/-- C4: `verifyCaptcha` always returns a `VerificationResult` (it is a
total function of its props); every failure result carries a non-empty
reason string; an exception thrown by the retrieval function is converted
into a failure whose reason is `"Verification error: "` followed by the
message; and an exception thrown by the mark-verified call is converted
the same way. -/
theorem verifyCaptcha_neverThrows (props : VerifyCaptchaProps) :
    ((verifyCaptcha props).1.success = false →
      ∃ m, (verifyCaptcha props).1.reason = some m ∧ m ≠ "") ∧
    (∀ e, props.getCaptchaValue props.captchaId = .error e →
      verifyCaptcha props = (⟨false, some ("Verification error: " ++ e)⟩, [])) ∧
    (∀ e sv s u, props.getCaptchaValue props.captchaId = .ok (some sv) →
      jsParseInt sv = some s → jsParseInt props.value = some u →
      |s - u| ≤ jsEffectiveTolerance props.tolerance →
      props.changeCaptchaIdOnSuccess props.captchaId ON_VERIFY_CAPTCHA_VALUE = .error e →
      (verifyCaptcha props).1 = ⟨false, some ("Verification error: " ++ e)⟩) := by
  refine ⟨?_, ?_, ?_⟩
  · intro hfalse
    rcases verifyCaptcha_result_shape props with h | h | h | h | ⟨e, h⟩
    · rw [h] at hfalse
      simp at hfalse
    · rw [h]
      exact ⟨_, rfl, by decide⟩
    · rw [h]
      exact ⟨_, rfl, by decide⟩
    · rw [h]
      exact ⟨_, rfl, by decide⟩
    · rw [h]
      exact ⟨_, rfl, verification_error_ne_empty e⟩
  · intro e hget
    exact verifyCaptcha_getError_eq props e hget
  · intro e sv s u hget hs hu hle hmark
    rw [verifyCaptcha_pending_eq props sv s u hget hs hu, if_pos hle, hmark]

/-- C4 witness: a retrieval function throwing `"boom"` produces
`{success: false, reason: "Verification error: boom"}` and no storage
write. -/
theorem verifyCaptcha_neverThrows_witness :
    verifyCaptcha c4Props = (⟨false, some ("Verification error: " ++ "boom")⟩, []) :=
  (verifyCaptcha_neverThrows c4Props).2.1 "boom" rfl

/-- C5: for every random draw `r ∈ [0,1)`, the slider offset
`max(55, floor(r * 249))` is an integer in `[55, 248]`, the value passed
to the injected storage function is exactly its decimal string, and it is
the left coordinate of both the 50x50 piece extraction and the black
square composite. -/
theorem createCaptcha_offsetRange (r : ℚ) (captchaId : Option String) (uuid : String)
    (h0 : 0 ≤ r) (h1 : r < 1) :
    55 ≤ (createCaptcha r captchaId uuid).sliderOffset ∧
    (createCaptcha r captchaId uuid).sliderOffset ≤ 248 ∧
    (createCaptcha r captchaId uuid).storeCall.2 =
      toString (createCaptcha r captchaId uuid).sliderOffset ∧
    (createCaptcha r captchaId uuid).extractLeft = (createCaptcha r captchaId uuid).sliderOffset ∧
    (createCaptcha r captchaId uuid).extractTop = 75 ∧
    (createCaptcha r captchaId uuid).extractWidth = 50 ∧
    (createCaptcha r captchaId uuid).extractHeight = 50 ∧
    (createCaptcha r captchaId uuid).compositeLeft =
      (createCaptcha r captchaId uuid).sliderOffset ∧
    (createCaptcha r captchaId uuid).compositeTop = 75 := by
  have hfloor : ⌊r * 249⌋ ≤ 248 := by
    have h2 : r * 249 < ((249 : ℤ) : ℚ) := by push_cast; nlinarith
    have h3 := Int.floor_lt.mpr h2
    omega
  refine ⟨?_, ?_, rfl, rfl, rfl, rfl, rfl, rfl, rfl⟩
  · show (55 : Int) ≤ max 55 ⌊r * 249⌋
    exact le_max_left _ _
  · show max 55 ⌊r * 249⌋ ≤ (248 : Int)
    exact max_le (by norm_num) hfloor

/-- C5 witness: the instance `r = 1/2` of the offset-range theorem. -/
theorem createCaptcha_offsetRange_witness :
    55 ≤ (createCaptcha (1/2) none "uuid-1").sliderOffset ∧
    (createCaptcha (1/2) none "uuid-1").sliderOffset ≤ 248 ∧
    (createCaptcha (1/2) none "uuid-1").storeCall.2 =
      toString (createCaptcha (1/2) none "uuid-1").sliderOffset ∧
    (createCaptcha (1/2) none "uuid-1").extractLeft =
      (createCaptcha (1/2) none "uuid-1").sliderOffset ∧
    (createCaptcha (1/2) none "uuid-1").extractTop = 75 ∧
    (createCaptcha (1/2) none "uuid-1").extractWidth = 50 ∧
    (createCaptcha (1/2) none "uuid-1").extractHeight = 50 ∧
    (createCaptcha (1/2) none "uuid-1").compositeLeft =
      (createCaptcha (1/2) none "uuid-1").sliderOffset ∧
    (createCaptcha (1/2) none "uuid-1").compositeTop = 75 :=
  createCaptcha_offsetRange (1/2) none "uuid-1" (by norm_num) (by norm_num)

/-- C6: when the injected retrieval function returns `null`,
`verifyCaptcha` returns failure with the not-found/expired reason, with no
storage write, and the result does not depend on the submitted value. -/
theorem verifyCaptcha_notFound (props : VerifyCaptchaProps)
    (hget : props.getCaptchaValue props.captchaId = .ok none) :
    ∀ v : String, verifyCaptcha { props with value := v } =
      (⟨false, some "Captcha not found or has expired"⟩, []) := by
  intro v
  exact verifyCaptcha_none_eq _ hget

/-- C6 witness: `verify("nonexistent", "100")` yields the not-found
result. -/
theorem verifyCaptcha_notFound_witness :
    verifyCaptcha { c6Props with value := "100" } =
      (⟨false, some "Captcha not found or has expired"⟩, []) :=
  verifyCaptcha_notFound c6Props rfl "100"

/-- C7 counterexample: an empty-string stored value is present and not the
sentinel and fails to parse, yet the result is the not-found reason, not
`"Invalid position values"` — the code treats the JavaScript-falsy `""`
as absent before parsing. -/
theorem verifyCaptcha_invalidValues_cex :
    jsParseInt "abc" = none ∧ ("" : String) ≠ ON_VERIFY_CAPTCHA_VALUE ∧
    (verifyCaptcha c7CexProps).1 ≠ ⟨false, some "Invalid position values"⟩ ∧
    verifyCaptcha c7CexProps = (⟨false, some "Captcha not found or has expired"⟩, []) := by
  decide

/-- C7 (amended): for every pending challenge whose stored value is
present, non-empty and not the sentinel, if either the stored value or the
submitted value fails to parse as an integer, `verifyCaptcha` returns
`{success: false, reason: "Invalid position values"}` and performs no
storage write. -/
theorem verifyCaptcha_invalidValues (props : VerifyCaptchaProps) (sv : String)
    (hget : props.getCaptchaValue props.captchaId = .ok (some sv))
    (hne : sv ≠ "") (hnv : sv ≠ ON_VERIFY_CAPTCHA_VALUE)
    (hfail : jsParseInt props.value = none ∨ jsParseInt sv = none) :
    verifyCaptcha props = (⟨false, some "Invalid position values"⟩, []) :=
  verifyCaptcha_invalid_eq props sv hget hne hnv hfail

/-- C7 witness: stored `"100"`, submission `"abc"`: the invalid-position
result with no storage write. -/
theorem verifyCaptcha_invalidValues_witness :
    verifyCaptcha c7WitProps = (⟨false, some "Invalid position values"⟩, []) :=
  verifyCaptcha_invalidValues c7WitProps "100" rfl (by decide) (by decide)
    (Or.inl (by decide))

/-- C8 counterexample: a caller-supplied empty-string id is provided yet
not returned — `captchaId || randomUUID()` treats the JavaScript-falsy
`""` as absent and mints the fresh UUID instead. -/
theorem createCaptcha_callerId_cex :
    (createCaptcha 0 (some "") "fresh-uuid").returnedId ≠ "" ∧
    (createCaptcha 0 (some "") "fresh-uuid").returnedId = "fresh-uuid" := by
  decide

/-- C8 (amended): `createCaptcha` returns the caller-supplied id whenever a
non-empty one is provided, and mints the fresh random UUID when the id is
absent or the empty string; in both cases the returned id is the one
passed to the injected storage function together with the stringified
secret offset. -/
theorem createCaptcha_callerId (r : ℚ) (captchaId : Option String) (uuid : String) :
    (∀ s, captchaId = some s → s ≠ "" → (createCaptcha r captchaId uuid).returnedId = s) ∧
    ((captchaId = none ∨ captchaId = some "") →
      (createCaptcha r captchaId uuid).returnedId = uuid) ∧
    (createCaptcha r captchaId uuid).storeCall =
      ((createCaptcha r captchaId uuid).returnedId,
        toString (createCaptcha r captchaId uuid).sliderOffset) := by
  refine ⟨?_, ?_, rfl⟩
  · rintro s rfl hs
    simp [createCaptcha, hs]
  · rintro (rfl | rfl)
    · rfl
    · rfl

/-- C8 witness: a supplied non-empty id `"my-id"` is the returned id. -/
theorem createCaptcha_callerId_witness :
    (createCaptcha (1/2) (some "my-id") "uuid-2").returnedId = "my-id" :=
  (createCaptcha_callerId (1/2) (some "my-id") "uuid-2").1 "my-id" rfl (by decide)

/-- C9: a caller-supplied tolerance of `0` is replaced by the default `10`
(`tolerance || 10`), so a pending challenge with stored integer `s`
verifies successfully for every submitted integer `u` with
`|s - u| ≤ 10`. -/
theorem verifyCaptcha_zeroTolerance (props : VerifyCaptchaProps) (sv : String) (s u : Int)
    (hget : props.getCaptchaValue props.captchaId = .ok (some sv))
    (hs : jsParseInt sv = some s) (hu : jsParseInt props.value = some u)
    (htol : props.tolerance = some 0)
    (hmark : props.changeCaptchaIdOnSuccess props.captchaId ON_VERIFY_CAPTCHA_VALUE = .ok ())
    (hle : |s - u| ≤ 10) :
    verifyCaptcha props = (⟨true, none⟩, [(props.captchaId, ON_VERIFY_CAPTCHA_VALUE)]) := by
  rw [verifyCaptcha_pending_eq props sv s u hget hs hu]
  have ht : jsEffectiveTolerance props.tolerance = 10 := by rw [htol]; rfl
  rw [ht, if_pos hle, hmark]

/-- C9 witness: tolerance `0`, stored `"100"`, submission `"108"`
(difference `8 > 0`): the verification succeeds. -/
theorem verifyCaptcha_zeroTolerance_witness :
    verifyCaptcha c9Props = (⟨true, none⟩, [("c9", ON_VERIFY_CAPTCHA_VALUE)]) :=
  verifyCaptcha_zeroTolerance c9Props "100" 100 108 rfl (by decide) (by decide) rfl rfl
    (by decide)

/-- C10: for a pending non-falsy stored value, the
`"Invalid position values"` result occurs exactly when `parseInt` yields
`NaN` on the submission or the stored value; `"125px"` parses to `125`
via its numeric prefix; and a submission whose numeric prefix is within
tolerance verifies successfully. -/
theorem verifyCaptcha_prefixParse (props : VerifyCaptchaProps) (sv : String)
    (hget : props.getCaptchaValue props.captchaId = .ok (some sv))
    (hne : sv ≠ "") (hnv : sv ≠ ON_VERIFY_CAPTCHA_VALUE) :
    ((verifyCaptcha props).1.reason = some "Invalid position values" ↔
      (jsParseInt props.value = none ∨ jsParseInt sv = none)) ∧
    jsParseInt "125px" = some 125 ∧
    (∀ s u, jsParseInt sv = some s → jsParseInt props.value = some u →
      |s - u| ≤ jsEffectiveTolerance props.tolerance →
      props.changeCaptchaIdOnSuccess props.captchaId ON_VERIFY_CAPTCHA_VALUE = .ok () →
      (verifyCaptcha props).1.success = true) := by
  refine ⟨⟨?_, ?_⟩, by decide, ?_⟩
  · intro hreason
    by_contra hno
    push_neg at hno
    obtain ⟨hu', hs'⟩ := hno
    obtain ⟨u, hu⟩ := Option.ne_none_iff_exists'.mp hu'
    obtain ⟨s, hs⟩ := Option.ne_none_iff_exists'.mp hs'
    rw [verifyCaptcha_pending_eq props sv s u hget hs hu] at hreason
    by_cases hle : |s - u| ≤ jsEffectiveTolerance props.tolerance
    · rw [if_pos hle] at hreason
      cases hmk : props.changeCaptchaIdOnSuccess props.captchaId ON_VERIFY_CAPTCHA_VALUE with
      | ok a =>
        rw [hmk] at hreason
        exact Option.noConfusion hreason
      | error e =>
        rw [hmk] at hreason
        exact verification_error_ne_invalid e (Option.some.inj hreason)
    · rw [if_neg hle] at hreason
      exact absurd (Option.some.inj hreason) (by decide)
  · intro hfail
    rw [verifyCaptcha_invalid_eq props sv hget hne hnv hfail]
  · intro s u hs hu hle hmark
    rw [verifyCaptcha_pending_eq props sv s u hget hs hu, if_pos hle, hmark]

/-- C10 witness: stored `"120"`, submission `"125px"`: the invalid-reason
equivalence holds, `"125px"` parses to `125`, and the submission verifies
successfully via its numeric prefix. -/
theorem verifyCaptcha_prefixParse_witness :
    ((verifyCaptcha c10Props).1.reason = some "Invalid position values" ↔
      (jsParseInt "125px" = none ∨ jsParseInt "120" = none)) ∧
    jsParseInt "125px" = some 125 ∧
    (∀ s u, jsParseInt "120" = some s → jsParseInt "125px" = some u →
      |s - u| ≤ jsEffectiveTolerance none →
      c10Props.changeCaptchaIdOnSuccess c10Props.captchaId ON_VERIFY_CAPTCHA_VALUE = .ok () →
      (verifyCaptcha c10Props).1.success = true) :=
  verifyCaptcha_prefixParse c10Props "120" rfl (by decide) (by decide)

end CustomCaptcha
